import Mathlib

/-!
Verification of the linex event ingestion and dispatch pipeline.

The definitions below are shallow embeddings of the Python source:
  * `src/linex/application.py`  — signature gate (`webhookPost`), `emit`, `wait_for`
  * `src/linex/processing.py`   — `process`, the event-type decode chain
  * `src/linex/rate_limiting.py`— `RateLimit.call` and the bucket presets
  * `src/linex/models/context.py` — `RepliableContext.reply` and the
    `MemberLeaveContext` / `StickerMessageContext` decoders

Bytes are `List Nat` (each entry one byte), wall-clock time is `ℚ` in seconds
(the source uses `time.time()` floats; every constant involved — 0.01, 0.1,
1200, the bucket windows — is exact in `ℚ`).  Fallible code returns `Except`
or an explicit error field; unbounded loops take explicit fuel.
-/

/-! ## SHA-256, HMAC-SHA256 and Base64

The webhook gate in `application.py` calls `hmac.new(secret, body,
hashlib.sha256).digest()` and `base64.b64encode`.  These are the Python
standard library's implementations of FIPS 180-4 SHA-256, RFC 2104 HMAC and
RFC 4648 Base64, embedded here directly.
-/

namespace SHA256

def mask32 : Nat := 4294967296

def rotr (n x : Nat) : Nat := ((x >>> n) ||| (x <<< (32 - n))) % mask32

def shr (n x : Nat) : Nat := x >>> n

def add32 (a b : Nat) : Nat := (a + b) % mask32

def not32 (x : Nat) : Nat := x ^^^ 4294967295

def ch (x y z : Nat) : Nat := (x &&& y) ^^^ (not32 x &&& z)

def maj (x y z : Nat) : Nat := (x &&& y) ^^^ (x &&& z) ^^^ (y &&& z)

def bsig0 (x : Nat) : Nat := rotr 2 x ^^^ rotr 13 x ^^^ rotr 22 x

def bsig1 (x : Nat) : Nat := rotr 6 x ^^^ rotr 11 x ^^^ rotr 25 x

def ssig0 (x : Nat) : Nat := rotr 7 x ^^^ rotr 18 x ^^^ shr 3 x

def ssig1 (x : Nat) : Nat := rotr 17 x ^^^ rotr 19 x ^^^ shr 10 x

/-- The 64 round constants of FIPS 180-4 section 4.2.2, in decimal. -/
def K : List Nat :=
  [1116352408, 1899447441, 3049323471, 3921009573, 961987163,
   1508970993, 2453635748, 2870763221, 3624381080, 310598401,
   607225278, 1426881987, 1925078388, 2162078206, 2614888103,
   3248222580, 3835390401, 4022224774, 264347078, 604807628,
   770255983, 1249150122, 1555081692, 1996064986, 2554220882,
   2821834349, 2952996808, 3210313671, 3336571891, 3584528711,
   113926993, 338241895, 666307205, 773529912, 1294757372,
   1396182291, 1695183700, 1986661051, 2177026350, 2456956037,
   2730485921, 2820302411, 3259730800, 3345764771, 3516065817,
   3600352804, 4094571909, 275423344, 430227734, 506948616,
   659060556, 883997877, 958139571, 1322822218, 1537002063,
   1747873779, 1955562222, 2024104815, 2227730452, 2361852424,
   2428436474, 2756734187, 3204031479, 3329325298]

/-- The initial hash state of FIPS 180-4 section 5.3.3, in decimal. -/
def H0 : List Nat :=
  [1779033703, 3144134277, 1013904242, 2773480762,
   1359893119, 2600822924, 528734635, 1541459225]

/-- Big-endian 8-byte encoding of the bit length for the final padding block. -/
def toBE64 (n : Nat) : List Nat :=
  [(n >>> 56) % 256, (n >>> 48) % 256, (n >>> 40) % 256, (n >>> 32) % 256,
   (n >>> 24) % 256, (n >>> 16) % 256, (n >>> 8) % 256, n % 256]

/-- FIPS 180-4 padding: 0x80, zeros to 56 mod 64, then the 64-bit bit count. -/
def pad (msg : List Nat) : List Nat :=
  let L := msg.length
  let z := (64 - ((L + 9) % 64)) % 64
  msg ++ [0x80] ++ List.replicate z 0 ++ toBE64 (L * 8)

/-- Split a byte list into 64-byte blocks. -/
def chunks64 : List Nat → List (List Nat)
  | [] => []
  | x :: rest => (x :: rest.take 63) :: chunks64 (rest.drop 63)
termination_by l => l.length
decreasing_by
  simp only [List.length_drop, List.length_cons]
  omega

/-- Big-endian 32-bit words from bytes. -/
def bytesToWords : List Nat → List Nat
  | b0 :: b1 :: b2 :: b3 :: rest =>
      (((b0 * 256 + b1) * 256 + b2) * 256 + b3) :: bytesToWords rest
  | _ => []

/-- Big-endian bytes from 32-bit words. -/
def wordsToBytes : List Nat → List Nat
  | w :: rest =>
      (w >>> 24) % 256 :: (w >>> 16) % 256 :: (w >>> 8) % 256 :: w % 256 ::
        wordsToBytes rest
  | [] => []

/-- One message-schedule extension step: appends W[t] from W[t-2..t-16]. -/
def extendStep (w : List Nat) : List Nat :=
  let n := w.length
  w ++ [add32 (add32 (ssig1 (w.getD (n - 2) 0)) (w.getD (n - 7) 0))
              (add32 (ssig0 (w.getD (n - 15) 0)) (w.getD (n - 16) 0))]

/-- The 64-word message schedule from a 16-word block. -/
def msgSchedule (w16 : List Nat) : List Nat :=
  (List.range 48).foldl (fun w _ => extendStep w) w16

/-- One compression round on the 8-word working state. -/
def round (s : List Nat) (kw : Nat × Nat) : List Nat :=
  match s with
  | [a, b, c, d, e, f, g, h] =>
      let t1 := add32 h (add32 (bsig1 e) (add32 (ch e f g) (add32 kw.1 kw.2)))
      let t2 := add32 (bsig0 a) (maj a b c)
      [add32 t1 t2, a, b, c, add32 d t1, e, f, g]
  | _ => s

/-- Compress one 64-byte block into the running hash state. -/
def compressBlock (H : List Nat) (block : List Nat) : List Nat :=
  let W := msgSchedule (bytesToWords block)
  let s := (K.zip W).foldl round H
  (H.zip s).map fun p => add32 p.1 p.2

/-- SHA-256 of a byte string, as a 32-byte digest. -/
def sha256 (msg : List Nat) : List Nat :=
  wordsToBytes ((chunks64 (pad msg)).foldl compressBlock H0)

end SHA256

/-- RFC 2104 HMAC key normalisation: hash keys longer than the 64-byte block,
then zero-pad to the block size. -/
def hmacKey (key : List Nat) : List Nat :=
  let k := if 64 < key.length then SHA256.sha256 key else key
  k ++ List.replicate (64 - k.length) 0

/-- HMAC-SHA256 as computed by Python `hmac.new(key, msg, hashlib.sha256)`. -/
def hmacSha256 (key msg : List Nat) : List Nat :=
  let k := hmacKey key
  let ipad := k.map fun b => b ^^^ 0x36
  let opad := k.map fun b => b ^^^ 0x5c
  SHA256.sha256 (opad ++ SHA256.sha256 (ipad ++ msg))

/-- The standard Base64 alphabet as ASCII byte values. -/
def b64Alphabet : List Nat :=
  (List.range 26).map (· + 65) ++ (List.range 26).map (· + 97) ++
    (List.range 10).map (· + 48) ++ [43, 47]

def b64char (n : Nat) : Nat := b64Alphabet.getD n 0

/-- RFC 4648 Base64 encoding with padding, as `base64.b64encode`. -/
def base64Encode : List Nat → List Nat
  | b0 :: b1 :: b2 :: rest =>
      let n := b0 * 65536 + b1 * 256 + b2
      b64char (n >>> 18) :: b64char ((n >>> 12) % 64) ::
        b64char ((n >>> 6) % 64) :: b64char (n % 64) :: base64Encode rest
  | [b0, b1] =>
      let n := b0 * 65536 + b1 * 256
      [b64char (n >>> 18), b64char ((n >>> 12) % 64), b64char ((n >>> 6) % 64), 61]
  | [b0] =>
      let n := b0 * 65536
      [b64char (n >>> 18), b64char ((n >>> 12) % 64), 61, 61]
  | [] => []

/-! ## Event envelopes and contexts

`EventData` carries the envelope fields the pipeline reads (a flattened view
of the webhook JSON: top-level keys plus the nested `message`, `joined`,
`left` and `things` sections; a `none` models an absent key).  The context
classes of `models/context.py` each wrap the fields they parse; for the
dispatch-level claims the decoded context is represented by a constructor
tagging the event it was built from, mirroring the Python class of the
object `process` constructs.
-/

/-- A source user object, as found in `joined.members` / `left.members`. -/
structure SourceUser where
  stype : String
  userId : String
  deriving DecidableEq, Repr

structure EventData where
  etype : String
  mode : String
  webhookEventId : String
  isRedelivery : Bool
  /-- `timestamp` in platform milliseconds, as delivered. -/
  timestamp : Nat
  sourceType : String
  sourceUserId : Option String
  replyToken : Option String
  /-- `message.type`, when the `message` section is present. -/
  messageType : Option String
  msgId : Option String
  msgText : Option String
  msgPackageId : Option String
  msgStickerId : Option String
  msgStickerResourceType : Option String
  msgKeywords : Option (List String)
  /-- `joined.members`, when the `joined` section is present. -/
  joined : Option (List SourceUser)
  /-- `left.members`, when the `left` section is present. -/
  left : Option (List SourceUser)
  /-- `things.type`, when the `things` section is present. -/
  thingsType : Option String
  deriving DecidableEq, Repr

/-- A neutral envelope to build fixtures from. -/
def baseEvent : EventData where
  etype := ""
  mode := "active"
  webhookEventId := "wh-0"
  isRedelivery := false
  timestamp := 0
  sourceType := "user"
  sourceUserId := some "U0"
  replyToken := none
  messageType := none
  msgId := none
  msgText := none
  msgPackageId := none
  msgStickerId := none
  msgStickerResourceType := none
  msgKeywords := none
  joined := none
  left := none
  thingsType := none

/-- The typed context `process` constructs for an event, one constructor per
context class of `models/context.py`. -/
inductive Context where
  | text (e : EventData)
  | image (e : EventData)
  | video (e : EventData)
  | audio (e : EventData)
  | file (e : EventData)
  | location (e : EventData)
  | sticker (e : EventData)
  | unsend (e : EventData)
  | follow (e : EventData)
  | unfollow (e : EventData)
  | join (e : EventData)
  | leave (e : EventData)
  | memberJoin (e : EventData)
  | memberLeave (e : EventData)
  | postback (e : EventData)
  | videoComplete (e : EventData)
  | beacon (e : EventData)
  | accountLink (e : EventData)
  | deviceLink (e : EventData)
  | deviceUnlink (e : EventData)
  | scenarioResult (e : EventData)
  deriving DecidableEq, Repr

/-- Errors the processing loop can raise (Python exception classes). -/
inductive ProcError where
  /-- `raise TypeError(f"Unknown event type: {...}")`, processing.py line 159.
  (The Python message repr-quotes the type name; the quotes are omitted.) -/
  | typeError (msg : String)
  /-- a failed `dict[...]` lookup (the `finder` / `things` maps). -/
  | keyError (key : String)
  /-- an unbound local read (`context` never assigned before first use). -/
  | nameError (var : String)
  deriving DecidableEq, Repr

/-! ## The decode chain of `process` (processing.py lines 79-159)

`decodeEvent` returns the channel name together with the value the loop
variable `context` is assigned for this event.  In the source the
`videoPlayComplete`, `beacon` and `accountLink` branches construct their
context object but never assign it to `context` (lines 131, 135, 139), so
for those branches the assignment component is `none`: the loop keeps
whatever `context` held before.
-/

def decodeEvent (e : EventData) : Except ProcError (String × Option Context) :=
  if e.etype = "message" then
    match e.messageType with
    | none => .error (.keyError "message")
    | some mt =>
      -- the `finder` dict: an unknown message type is a KeyError
      if mt = "text" then .ok ("text", some (.text e))
      else if mt = "image" then .ok ("image", some (.image e))
      else if mt = "video" then .ok ("video", some (.video e))
      else if mt = "audio" then .ok ("audio", some (.audio e))
      else if mt = "file" then .ok ("file", some (.file e))
      else if mt = "location" then .ok ("location", some (.location e))
      else if mt = "sticker" then .ok ("sticker", some (.sticker e))
      else .error (.keyError mt)
  else if e.etype = "unsend" then .ok ("unsend", some (.unsend e))
  else if e.etype = "follow" then .ok ("follow", some (.follow e))
  else if e.etype = "unfollow" then .ok ("unfollow", some (.unfollow e))
  else if e.etype = "join" then .ok ("join", some (.join e))
  else if e.etype = "leave" then .ok ("leave", some (.leave e))
  else if e.etype = "memberJoined" then .ok ("member_join", some (.memberJoin e))
  else if e.etype = "memberLeft" then .ok ("member_leave", some (.memberLeave e))
  else if e.etype = "postback" then .ok ("postback", some (.postback e))
  else if e.etype = "videoPlayComplete" then
    -- source line 131: `VideoViewingCompleteContext(event, *args)` — not assigned
    .ok ("video_complete", none)
  else if e.etype = "beacon" then
    -- source line 135: `BeaconContext(event, *args)` — not assigned
    .ok ("beacon", none)
  else if e.etype = "accountLink" then
    -- source line 139: `AccountLinkContext(event, *args)` — not assigned
    .ok ("account_link", none)
  else if e.etype = "things" then
    match e.thingsType with
    | none => .error (.keyError "things")
    | some tt =>
      if tt = "link" then .ok ("device_link", some (.deviceLink e))
      else if tt = "unlink" then .ok ("device_unlink", some (.deviceUnlink e))
      else if tt = "scenarioResult" then .ok ("scenario_result", some (.scenarioResult e))
      else .error (.keyError tt)
  else .error (.typeError ("Unknown event type: " ++ e.etype))

/-! ## Dispatch state and the processing loop -/

/-- One handler invocation performed by `Client.emit`: which handler, on which
channel, with which context argument.  Handlers are identified by number;
`emit` awaits them one at a time, so the trace order is the execution order. -/
structure Invocation where
  handler : Nat
  channel : String
  ctx : Context
  deriving DecidableEq, Repr

/-- The pending wait-for map: channel name to (request id, slot) pairs,
`Client.pending` in application.py. -/
abbrev PendingMap := List (String × List (String × Option Context))

/-- Client configuration: the standby switch and the handler registry
(channel name to the registered handler list, in registration order). -/
structure Config where
  ignoreStandby : Bool
  handlers : String → List Nat

/-- The mutable state `process` threads through a batch: the loop variable
`context` (unbound at loop entry), the invocation trace so far, the pending
map, and the pending exception, if one was raised. -/
structure ProcState where
  curCtx : Option Context
  trace : List Invocation
  pending : PendingMap
  error : Option ProcError
  deriving Repr

/-- `fulfill_pendings` (processing.py lines 75-77): write `ctx` into every
pending slot registered under channel `name`. -/
def fulfillPendings (pending : PendingMap) (name : String) (ctx : Context) :
    PendingMap :=
  pending.map fun chan =>
    if chan.1 = name then (chan.1, chan.2.map fun slot => (slot.1, some ctx))
    else chan

/-- `Client.emit` (application.py lines 226-259): invoke every handler
registered on the channel, in list order, awaiting each before the next.
(The source's `if not handler: continue` guard never fires, since only
function objects — always truthy — are registered.) -/
def emitInvocations (cfg : Config) (name : String) (ctx : Context) :
    List Invocation :=
  (cfg.handlers name).map fun h => ⟨h, name, ctx⟩

/-- One iteration of the `for event in events` loop of `process`
(processing.py lines 79-163), for an event reached with no pending error. -/
def processStep (cfg : Config) (e : EventData) (σ : ProcState) : ProcState :=
  if e.mode = "standby" ∧ cfg.ignoreStandby then σ
  else
    match decodeEvent e with
    | .error err => { σ with error := some err }
    | .ok (name, assigned) =>
      -- the loop variable `context` after this event's decode branch
      let ctx? := match assigned with
        | some c => some c
        | none => σ.curCtx
      match ctx? with
      | none =>
        -- `fulfill_pendings(name, context)` reads an unbound local
        { σ with error := some (.nameError "context") }
      | some ctx =>
        { σ with
            curCtx := some ctx,
            pending := fulfillPendings σ.pending name ctx,
            trace := σ.trace ++ emitInvocations cfg name ctx }

/-- `process` (processing.py lines 46-163) over the `events` array: events are
handled strictly in array order; a raised exception aborts the remainder of
the batch (there is no per-event handler inside the loop). -/
def process (cfg : Config) (events : List EventData) (σ : ProcState) :
    ProcState :=
  match events with
  | [] => σ
  | e :: rest =>
    match σ.error with
    | some _ => σ
    | none => process cfg rest (processStep cfg e σ)

/-- The state at the top of the webhook POST handler: no `context` bound,
nothing dispatched yet. -/
def initState (pending : PendingMap) : ProcState :=
  ⟨none, [], pending, none⟩

/-! ## The webhook POST endpoint (application.py lines 132-173) -/

/-- The response of the POST route: either the 400 rejection (the payload is
never parsed, nothing is dispatched — no `ProcState` exists in that branch),
or the 200 acknowledgement together with the dispatch outcome. -/
inductive WebhookReply where
  | invalid (status : Nat) (message : String)
  | ok (message : String) (result : ProcState)

/-- The signature the endpoint computes:
`base64.b64encode(hmac.new(channel_secret, body, hashlib.sha256).digest())`. -/
def validSignature (channelSecret body : List Nat) : List Nat :=
  base64Encode (hmacSha256 channelSecret body)

/-- The POST handler (application.py lines 132-173): compare the claimed
`X-Line-Signature` header bytes against the computed signature with
`hmac.compare_digest` (a constant-time comparison whose value is byte-string
equality); reject with `400 {"message": "invalid webhook"}` on mismatch,
otherwise parse the body into `payload` and run `process` on its events.
`payload` is passed here as the already-parsed event array the body denotes;
the rejecting branch never touches it. -/
def webhookPost (channelSecret body lineSignature : List Nat)
    (payload : List EventData) (cfg : Config) (pending : PendingMap) :
    WebhookReply :=
  if lineSignature = validSignature channelSecret body then
    .ok "happy birthday" (process cfg payload (initState pending))
  else
    .invalid 400 "invalid webhook"

/-! ## The rate limiter (rate_limiting.py)

`RateLimit.__slots__` holds only the per-instance `calls` allowance and `per`
window.  `status` (lines 18-22) is a *class attribute*: one dict object
shared by every `RateLimit` instance, which `call` mutates in place through
`self.status[...]`.  The embedding therefore threads an `RLStatus` value
explicitly; calls on different bucket instances that thread one and the same
status value reproduce the source's shared class dict, and per-bucket
semantics would correspond to threading a separate status per instance.
-/

/-- The `status` dict: `first_call` and `wait_end` are `time.time()` seconds
(0 meaning unset/falsy), `calls` is the running counter. -/
structure RLStatus where
  first_call : ℚ
  calls : Nat
  wait_end : ℚ
  deriving DecidableEq, Repr

/-- `{"first_call": 0, "calls": 0, "wait_end": 0}`. -/
def freshStatus : RLStatus := ⟨0, 0, 0⟩

/-- A rate limit bucket instance: its allowance and window (the two
`__slots__` fields). -/
structure RateLimit where
  calls : Nat
  per : ℚ
  deriving DecidableEq, Repr

/-- `RateLimit.other()`: 2,000 requests per second. -/
def RateLimit.other : RateLimit := ⟨2000, 1⟩

/-- `RateLimit.stats_and_broadcast()`: 60 requests per hour. -/
def RateLimit.stats_and_broadcast : RateLimit := ⟨60, 60 * 60⟩

/-- `RateLimit.audience_and_ads()`: 60 requests per minute. -/
def RateLimit.audience_and_ads : RateLimit := ⟨60, 60⟩

/-- `RateLimit.webhook_endpoint()`: 1,000 requests per minute. -/
def RateLimit.webhook_endpoint : RateLimit := ⟨1000, 60⟩

/-- `RateLimit.rich_menu()`: 100 requests per hour. -/
def RateLimit.rich_menu : RateLimit := ⟨100, 60 * 60⟩

/-- `RateLimit.replace_unlink_rich_menu()`: 3 requests per hour. -/
def RateLimit.replace_unlink_rich_menu : RateLimit := ⟨3, 60 * 60⟩

/-- `RateLimit.call` (rate_limiting.py lines 34-66) for one caller: given the
status at entry and `now = time.time()`, returns the status after the call
and the total time the caller was suspended, or `none` if the explicit fuel
for the `return await self.call()` retry is exhausted.  `asyncio.sleep` of a
negative duration yields immediately, so the slept time is clamped at 0; the
retry resamples `time.time()` after the sleep. -/
def RateLimit.call (rl : RateLimit) (st : RLStatus) (now : ℚ) :
    Nat → Option (RLStatus × ℚ)
  | 0 => none
  | fuel + 1 =>
    if st.wait_end ≠ 0 then
      -- `await asyncio.sleep((now - should_wait)); return await self.call()`
      let slept := max 0 (now - st.wait_end)
      match rl.call st (now + slept) fuel with
      | some (st2, s) => some (st2, slept + s)
      | none => none
    else if st.first_call = 0 then
      -- first call ever on the (shared) status: record and proceed
      some ({ st with first_call := now, calls := st.calls + 1 }, 0)
    else
      let st1 : RLStatus := { st with calls := st.calls + 1 }
      if st1.calls > rl.calls ∧ now - st1.first_call < rl.per then
        -- set `wait_end`, sleep `per + 0.1`, then reset all three fields
        some (freshStatus, rl.per + 1 / 10)
      else
        some (st1, 0)

/-- A sequence of calls on one bucket, threading the status; returns the
final status and each call's suspension time.  (A lone caller never observes
`wait_end ≠ 0` at entry, so fuel 1 per call suffices and no call retries.) -/
def runCalls (rl : RateLimit) : RLStatus → List ℚ → Option (RLStatus × List ℚ)
  | st, [] => some (st, [])
  | st, t :: ts =>
    match rl.call st t 1 with
    | none => none
    | some (st1, s) =>
      match runCalls rl st1 ts with
      | none => none
      | some (st2, ss) => some (st2, s :: ss)

/-- A sequence of calls on possibly different bucket instances threading the
single class-level `status` dict, as every caller in http.py does. -/
def runShared : RLStatus → List (RateLimit × ℚ) → Option (RLStatus × List ℚ)
  | st, [] => some (st, [])
  | st, (rl, t) :: rest =>
    match rl.call st t 1 with
    | none => none
    | some (st1, s) =>
      match runShared st1 rest with
      | none => none
      | some (st2, ss) => some (st2, s :: ss)

/-- http.py line 63: `rr_getUser = RateLimit.other()`. -/
def rr_getUser : RateLimit := RateLimit.other

/-- http.py line 120: `rr_testWebhook = RateLimit.stats_and_broadcast()`. -/
def rr_testWebhook : RateLimit := RateLimit.stats_and_broadcast

/-- Times `t, t+1, ..., t+n-1`. -/
def rampTimes : Nat → ℚ → List ℚ
  | 0, _ => []
  | n + 1, t => t :: rampTimes n (t + 1)

/-! ## `Client.wait_for` (application.py lines 375-420)

The loop body reads the pending slot `self.pending[name][_id]`; the slot's
value at the n-th iteration is modelled by `slotAt n` (the dispatcher's
`fulfill_pendings` is the only writer).  One iteration: if the slot holds a
value failing `check`, the body `continue`s — skipping the sleep, the
`elapsed` increment and the timeout test; if it holds a satisfying value the
body records it, still sleeps once and still runs the timeout test, then the
`while` condition exits; if it holds nothing the body sleeps 0.01s, adds
0.01 to `elapsed` and raises `asyncio.TimeoutError` once `elapsed >= timeout`
(for a truthy, i.e. non-`None` non-zero, `timeout`).
-/

/-- How a `wait_for` call ends. -/
inductive WaitOutcome where
  /-- `raise asyncio.TimeoutError(...)` — note the `del` on line 419 is
  skipped on this path. -/
  | timeoutRaised
  /-- normal return of the resolved context after `del self.pending[name][_id]`. -/
  | returned (c : Context)
  deriving DecidableEq, Repr

/-- The truthiness test `if timeout and elapsed >= timeout` (line 414):
`None` and `0` are both falsy. -/
def timeoutHit (timeout : Option ℚ) (elapsed : ℚ) : Bool :=
  match timeout with
  | none => false
  | some t => t ≠ 0 ∧ t ≤ elapsed

/-- The polling loop of `wait_for`, starting at iteration `i` with the given
`elapsed`; `none` when the fuel runs out with the loop still running. -/
def waitLoop (check : Context → Bool) (timeout : Option ℚ)
    (slotAt : Nat → Option Context) (elapsed : ℚ) (i : Nat) :
    Nat → Option WaitOutcome
  | 0 => none
  | fuel + 1 =>
    match slotAt i with
    | some c =>
      if ¬check c then
        -- `continue`: no sleep, no elapsed increment, no timeout test
        waitLoop check timeout slotAt elapsed (i + 1) fuel
      else
        -- `result = _pre_result`, then one more sleep and timeout test
        if timeoutHit timeout (elapsed + 1 / 100) then some .timeoutRaised
        else some (.returned c)
    | none =>
      if timeoutHit timeout (elapsed + 1 / 100) then some .timeoutRaised
      else waitLoop check timeout slotAt (elapsed + 1 / 100) (i + 1) fuel

/-- Whole `wait_for` call: the entry for the request id is created first
(line 393); it is deleted only on the normal-return path (line 419), not when
the timeout is raised.  Returns the outcome paired with whether the pending
entry for the request id is still in the map afterwards. -/
def wait_for (check : Context → Bool) (timeout : Option ℚ)
    (slotAt : Nat → Option Context) (fuel : Nat) :
    Option (WaitOutcome × Bool) :=
  match waitLoop check timeout slotAt 0 0 fuel with
  | none => none
  | some .timeoutRaised => some (.timeoutRaised, true)
  | some (.returned c) => some (.returned c, false)

/-! ## `RepliableContext.reply` (models/context.py lines 222-277)

`BaseContext.__init__` stores `timestamp / 1000` (seconds); `reply` compares
`time.time() - self.timestamp` against `60 * 20`.  The guards run in source
order: the falsy-token check raises `TypeError` (line 243), then the window
check and the already-replied check raise `CannotReply` (lines 246, 252);
`_to_valid_message_objects` repeats the window check (line 197) with the same
outcome.  `self.replied = True` (line 268) executes *before* the awaited
outbound `reply(...)` HTTP call (line 269) and is never rolled back.
-/

/-- The exceptions `reply` can surface (messages abridged from the source). -/
inductive ReplyError where
  /-- `raise TypeError("Reply error was not provided, ...")` — line 243. -/
  | typeError (msg : String)
  /-- `raise CannotReply(...)` — lines 199, 246, 252. -/
  | cannotReply (msg : String)
  /-- the awaited outbound HTTP send itself failed (httpx error, passed
  through raw). -/
  | sendFailed
  deriving DecidableEq, Repr

/-- Result of one `reply` call: the exception if one was raised, the value of
the `replied` flag afterwards, and how many outbound sends were performed. -/
structure ReplyResult where
  error : Option ReplyError
  replied : Bool
  sends : Nat
  deriving DecidableEq, Repr

/-- `if not self.reply_token` — `None` and the empty string are falsy. -/
def tokenFalsy : Option String → Bool
  | none => true
  | some s => s = ""

/-- `RepliableContext.reply` on a context whose event timestamp is
`timestamp` (seconds), called at wall-clock `now` with the `replied` flag as
given; `sendOk` tells whether the awaited outbound HTTP call succeeds. -/
def RepliableContext.reply (reply_token : Option String)
    (timestamp now : ℚ) (replied : Bool) (sendOk : Bool) : ReplyResult :=
  if tokenFalsy reply_token then
    ⟨some (.typeError "Reply error was not provided, check ctx.state."), replied, 0⟩
  else if 60 * 20 < now - timestamp then
    ⟨some (.cannotReply "It has been more than 20 minutes since the event occurred."), replied, 0⟩
  else if replied then
    ⟨some (.cannotReply "This interaction has already been replied."), replied, 0⟩
  else if 60 * 20 < now - timestamp then
    -- the repeated window check inside `_to_valid_message_objects`
    ⟨some (.cannotReply "Cannot reply to this message: 20mins had passed."), replied, 0⟩
  else if sendOk then
    ⟨none, true, 1⟩
  else
    -- `self.replied = True` already ran when the send raises
    ⟨some .sendFailed, true, 1⟩

/-! ## Per-variant context decoding (models/context.py, claims on
`MemberLeaveContext` and `StickerMessageContext`) -/

/-- A failed required-key lookup inside a context constructor. -/
inductive DecodeError where
  | keyError (key : String)
  deriving DecidableEq, Repr

/-- `MemberLeaveContext.__init__` (context.py lines 989-995): the constructor
reads `data['joined']['members']` — the `joined` section, not the `left`
section a memberLeft envelope carries — and stores it as `_members`, which
the `members` property returns. -/
def MemberLeaveContext.init (d : EventData) :
    Except DecodeError (List SourceUser) :=
  match d.joined with
  | some ms => .ok ms
  | none => .error (.keyError "joined")

/-- The fields `StickerMessageContext.__init__` (lines 800-812) stores. -/
structure StickerMessageContext where
  _id : String
  _pi : String
  _si : String
  _rT : String
  _kw : Option (List String)
  _text : Option String
  deriving DecidableEq, Repr

/-- `StickerMessageContext.__init__`: required keys `id`, `packageId`,
`stickerId`, `stickerResourceType`; `keywords` and `text` via `.get`. -/
def StickerMessageContext.init (d : EventData) :
    Except DecodeError StickerMessageContext :=
  match d.msgId, d.msgPackageId, d.msgStickerId, d.msgStickerResourceType with
  | some i, some p, some s, some r => .ok ⟨i, p, s, r, d.msgKeywords, d.msgText⟩
  | none, _, _, _ => .error (.keyError "id")
  | _, none, _, _ => .error (.keyError "packageId")
  | _, _, none, _ => .error (.keyError "stickerId")
  | _, _, _, none => .error (.keyError "stickerResourceType")

/-- The `text` property (context.py lines 850-856) as written returns
`self.text` — the property itself — rather than `self._text`.  Each access
is one more recursive property call; the argument is the remaining Python
call-stack budget, and `none` means no value is ever produced (the access
ends in a `RecursionError`). -/
def StickerMessageContext.textProp (c : StickerMessageContext) :
    Nat → Option String
  | 0 => none
  | depth + 1 => c.textProp depth

/-! ## Fixtures -/

/-- A well-formed text message event. -/
def textEvent : EventData :=
  { baseEvent with
      etype := "message", messageType := some "text",
      msgId := some "m1", msgText := some "hello",
      replyToken := some "rtok1" }

/-- A second well-formed text message event. -/
def textEvent2 : EventData :=
  { baseEvent with
      etype := "message", messageType := some "text",
      msgId := some "m2", msgText := some "again",
      replyToken := some "rtok2" }

/-- An event whose `type` matches no known discriminator. -/
def unknownEvent : EventData := { baseEvent with etype := "bogus" }

/-- A well-formed beacon event. -/
def beaconEvent : EventData :=
  { baseEvent with etype := "beacon", replyToken := some "rtokb" }

/-- A registry with one handler (number 0) on the "text" channel. -/
def cfgText : Config := ⟨true, fun name => if name = "text" then [0] else []⟩

/-- A registry with handlers 0, 1, 2 (in that registration order) on the
"beacon" channel and handler 9 on the "text" channel. -/
def cfgBeacon : Config :=
  ⟨true, fun name =>
    if name = "beacon" then [0, 1, 2] else if name = "text" then [9] else []⟩

/-! ## Batch processing lemmas -/

/-- A raised exception freezes the loop: once `error` is set no further event
is processed. -/
lemma process_error_frozen (cfg : Config) (es : List EventData) (σ : ProcState)
    (h : σ.error ≠ none) : process cfg es σ = σ := by
  cases es with
  | nil => rfl
  | cons e rest =>
    cases h2 : σ.error with
    | none => exact absurd h2 h
    | some err => simp [process, h2]

/-- Processing a concatenated batch is processing the first part, then the
second from the resulting state (the error field short-circuits). -/
lemma process_append (cfg : Config) (xs ys : List EventData) (σ : ProcState) :
    process cfg (xs ++ ys) σ = process cfg ys (process cfg xs σ) := by
  induction xs generalizing σ with
  | nil => rfl
  | cons x xs ih =>
    cases h : σ.error with
    | some err =>
      have hne : σ.error ≠ none := by simp [h]
      rw [process_error_frozen cfg ((x :: xs) ++ ys) σ hne,
          process_error_frozen cfg (x :: xs) σ hne,
          process_error_frozen cfg ys σ hne]
    | none =>
      simp only [List.cons_append]
      simp only [process, h]
      exact ih (processStep cfg x σ)

/-- A decode failure on a non-skipped event only sets the error field. -/
lemma processStep_decode_error (cfg : Config) (e : EventData) (σ : ProcState)
    (err : ProcError) (hd : decodeEvent e = .error err)
    (hs : ¬(e.mode = "standby" ∧ cfg.ignoreStandby)) :
    processStep cfg e σ = { σ with error := some err } := by
  simp [processStep, hs, hd]

/-- C1 (counterexample): in the 3-event batch text/unknown/text with one
handler on the "text" channel, only ONE handler invocation occurs — the
event after the unknown one is never dispatched — and the loop ends with the
raised `TypeError`, contradicting the claimed two invocations under
per-event partial-failure isolation. -/
theorem c1_counterexample :
    (process cfgText [textEvent, unknownEvent, textEvent2]
        (initState [])).trace = [⟨0, "text", .text textEvent⟩]
    ∧ (process cfgText [textEvent, unknownEvent, textEvent2]
        (initState [])).error =
        some (.typeError "Unknown event type: bogus") := by
  decide

/-- C1 (amended): an event whose type matches no known discriminator makes
`process` raise a `TypeError` (there is no `UnknownEventType` class in
exceptions.py) which aborts the rest of the batch: the events before it are
decoded and dispatched normally, the unknown event produces no handler
invocation, and the events after it are not processed at all; the exception
propagates out of `process` (the FastAPI app-wide handler logging it). -/
theorem c1_unknown_aborts (cfg : Config) (es₁ es₂ : List EventData)
    (bad : EventData) (σ : ProcState) (err : ProcError)
    (hd : decodeEvent bad = .error err)
    (hs : ¬(bad.mode = "standby" ∧ cfg.ignoreStandby))
    (h1 : (process cfg es₁ σ).error = none) :
    process cfg (es₁ ++ bad :: es₂) σ =
      { process cfg es₁ σ with error := some err } := by
  rw [process_append]
  have hstep := processStep_decode_error cfg bad (process cfg es₁ σ) err hd hs
  simp only [process, h1, hstep]
  exact process_error_frozen cfg es₂ _ (by simp)

/-- C1 (witness): the amended theorem applied to the concrete 3-event batch. -/
theorem c1_witness :
    process cfgText [textEvent, unknownEvent, textEvent2] (initState []) =
      { process cfgText [textEvent] (initState []) with
          error := some (.typeError "Unknown event type: bogus") } :=
  c1_unknown_aborts cfgText [textEvent] [textEvent2] unknownEvent
    (initState []) (.typeError "Unknown event type: bogus")
    (by rfl) (by decide) (by decide)

/-- C2: the webhook POST handler accepts the request (parsing the payload and
running `process` over its events, answering 200) exactly when the claimed
`X-Line-Signature` header equals the Base64-encoded HMAC-SHA256 of the raw
body under the channel secret; otherwise it answers
`400 {"message": "invalid webhook"}` and the payload is neither parsed nor
dispatched (the rejecting branch carries no processing state at all).  The
comparison in the source is `hmac.compare_digest`, whose value is byte-string
equality (its constant-time execution is a timing property outside this
model). -/
theorem c2_signature_gate (secret body header : List Nat)
    (payload : List EventData) (cfg : Config) (pending : PendingMap) :
    webhookPost secret body header payload cfg pending =
      (if header = validSignature secret body
       then .ok "happy birthday" (process cfg payload (initState pending))
       else .invalid 400 "invalid webhook")
    ∧ (webhookPost secret body header payload cfg pending =
        .ok "happy birthday" (process cfg payload (initState pending)) ↔
        header = validSignature secret body) := by
  by_cases hh : header = validSignature secret body <;>
    simp [webhookPost, hh]

/-- C4: dispatching the batch [text, beacon] with handlers 0, 1, 2 registered
on the "beacon" channel and handler 9 on "text": the text event's handlers
run in registration order with its own context, but the beacon event's
handlers all receive the context decoded from the *text* event — the beacon
branch of `process` (processing.py line 135) constructs `BeaconContext` and
never assigns it, so the loop variable still holds the previous event's
context.  A pending wait-for slot on the "beacon" channel is likewise
fulfilled with the stale text context.  When the beacon event is the first
of the batch, the loop reads the never-assigned variable and raises
`NameError` (an unbound local), aborting the batch. -/
theorem c4_stale_context_dispatch :
    (process cfgBeacon [textEvent, beaconEvent] (initState [])).trace =
      [⟨9, "text", .text textEvent⟩,
       ⟨0, "beacon", .text textEvent⟩,
       ⟨1, "beacon", .text textEvent⟩,
       ⟨2, "beacon", .text textEvent⟩]
    ∧ (process cfgBeacon [textEvent, beaconEvent]
        (initState [("beacon", [("req1", none)])])).pending =
        [("beacon", [("req1", some (.text textEvent))])]
    ∧ (process cfgBeacon [beaconEvent] (initState [])).error =
        some (.nameError "context")
    ∧ (process cfgBeacon [beaconEvent] (initState [])).trace = [] := by
  decide


/-! ## Rate limiter behaviour -/

/-- While the shared counter stays at or below the bucket's allowance, every
call completes with no suspension, only incrementing the counter (the window
is not even consulted, since the conjunction's first clause already fails). -/
lemma runCalls_steady (rl : RateLimit) (t₀ : ℚ) (h₀ : t₀ ≠ 0) :
    ∀ (ts : List ℚ) (k : Nat) (rest : List ℚ), k + ts.length ≤ rl.calls →
    runCalls rl ⟨t₀, k, 0⟩ (ts ++ rest) =
      (runCalls rl ⟨t₀, k + ts.length, 0⟩ rest).map
        (fun q => (q.1, List.replicate ts.length 0 ++ q.2)) := by
  intro ts
  induction ts with
  | nil =>
    intro k rest _
    cases h : runCalls rl ⟨t₀, k, 0⟩ rest <;> simp [h]
  | cons t ts ih =>
    intro k rest hk
    have hcall : rl.call ⟨t₀, k, 0⟩ t 1 = some (⟨t₀, k + 1, 0⟩, 0) := by
      have hnotover : ¬(k + 1 > rl.calls) := by
        simp only [List.length_cons] at hk; omega
      simp [RateLimit.call, h₀, hnotover]
    have hk2 : (k + 1) + ts.length ≤ rl.calls := by
      simp only [List.length_cons] at hk; omega
    simp only [List.cons_append, List.length_cons]
    rw [show k + (ts.length + 1) = k + 1 + ts.length by omega]
    simp only [runCalls, hcall]
    rw [ih (k + 1) rest hk2]
    cases h2 : runCalls rl ⟨t₀, k + 1 + ts.length, 0⟩ rest with
    | none => simp
    | some q => simp [List.replicate_succ]

/-- C5: on a fresh bucket, the first `calls` requests issued at nonzero times
all complete with zero suspension, and a further request issued while still
inside the window measured from the first call suspends for `per + 0.1`
seconds (which is at least `per`), after which `first_call`, `calls` and
`wait_end` are all reset to zero.  First conjunct: the `calls + 1` request
pattern; second conjunct: any sequence of at most `calls` requests sees only
zero suspensions. -/
theorem c5_rate_limit_window :
    (∀ (rl : RateLimit) (t₀ : ℚ) (ts : List ℚ) (tLast : ℚ),
      t₀ ≠ 0 → ts.length + 1 = rl.calls → tLast - t₀ < rl.per →
      runCalls rl freshStatus (t₀ :: ts ++ [tLast]) =
        some (freshStatus, List.replicate rl.calls 0 ++ [rl.per + 1 / 10])
      ∧ rl.per ≤ rl.per + 1 / 10)
    ∧ (∀ (rl : RateLimit) (t₀ : ℚ) (ts : List ℚ),
      t₀ ≠ 0 → ts.length + 1 ≤ rl.calls →
      runCalls rl freshStatus (t₀ :: ts) =
        some (⟨t₀, ts.length + 1, 0⟩, List.replicate (ts.length + 1) 0)) := by
  have hfirst : ∀ (rl : RateLimit) (t₀ : ℚ),
      rl.call freshStatus t₀ 1 = some (⟨t₀, 1, 0⟩, 0) := by
    intro rl t₀
    simp [RateLimit.call, freshStatus]
  constructor
  · intro rl t₀ ts tLast h₀ hlen hwin
    refine ⟨?_, by linarith⟩
    have hk : 1 + ts.length ≤ rl.calls := by omega
    have hlast : rl.call ⟨t₀, rl.calls, 0⟩ tLast 1 =
        some (freshStatus, rl.per + 1 / 10) := by
      have hover : rl.calls + 1 > rl.calls := by omega
      simp [RateLimit.call, h₀, hover, hwin]
    have hmid := runCalls_steady rl t₀ h₀ ts 1 [tLast] hk
    rw [show 1 + ts.length = rl.calls by omega] at hmid
    have htail : runCalls rl ⟨t₀, rl.calls, 0⟩ [tLast] =
        some (freshStatus, [rl.per + 1 / 10]) := by
      simp only [runCalls, hlast]
    rw [htail] at hmid
    simp only [List.cons_append, runCalls, hfirst]
    simp only [List.append_eq]
    rw [hmid]
    rw [show rl.calls = ts.length + 1 by omega]
    simp [Option.map, List.replicate_succ]
  · intro rl t₀ ts h₀ hlen
    have hk : 1 + ts.length ≤ rl.calls := by omega
    have hmid := runCalls_steady rl t₀ h₀ ts 1 [] hk
    rw [List.append_nil] at hmid
    simp only [runCalls, Option.map_some] at hmid
    simp only [runCalls, hfirst, hmid]
    rw [show 1 + ts.length = ts.length + 1 by omega]
    simp [List.replicate_succ]

/-- C5 (witness): a bucket allowing 2 calls per 5 seconds, called at times
1, 2, 3: the first two calls do not suspend, the third suspends 5.1 seconds
and the bucket resets. -/
theorem c5_witness :
    runCalls ⟨2, 5⟩ freshStatus [1, 2, 3] =
      some (freshStatus, [0, 0, 5 + 1 / 10]) ∧ (5 : ℚ) ≤ 5 + 1 / 10 := by
  have h := c5_rate_limit_window.1 ⟨2, 5⟩ 1 [2] 3 (by norm_num) (by rfl)
    (by norm_num)
  exact ⟨by simpa [List.replicate] using h.1, h.2⟩

/-- C6: `status` being one class-level dict shared by every bucket instance,
a call on one bucket reads and increments the counters of every other: after
a single `rr_getUser` call (the 2000-per-second "other" bucket) at time 1,
the very first call ever made on `rr_testWebhook` (the 60-per-hour
broadcast/stats bucket) at time 2 does not take the fresh-bucket branch: it
finds `first_call = 1` — the other bucket's timestamp — and pushes the
shared counter to 2, ending in state ⟨1, 2, 0⟩; the same `rr_testWebhook`
call alone on the status (second conjunct) records its own `first_call = 2`
and a counter of 1.  Since the exceed test compares that shared counter with
each bucket's own allowance, calls on one bucket consume — and can exhaust —
every other bucket's budget. -/
theorem c6_shared_status_across_buckets :
    runShared freshStatus [(rr_getUser, 1), (rr_testWebhook, 2)] =
      some (⟨1, 2, 0⟩, [0, 0])
    ∧ runShared freshStatus [(rr_testWebhook, 2)] = some (⟨2, 1, 0⟩, [0]) := by
  decide

/-! ## `wait_for` behaviour -/

/-- With the slot never fulfilled, the loop adds 0.01 to `elapsed` each
iteration and raises `asyncio.TimeoutError` as soon as `elapsed` reaches a
truthy timeout — which happens within the given fuel whenever the fuel
covers the remaining time. -/
lemma waitLoop_never_fulfilled (check : Context → Bool) (T : ℚ)
    (hT : 0 < T) :
    ∀ (fuel : Nat) (elapsed : ℚ) (i : Nat), 1 ≤ fuel →
      T ≤ elapsed + fuel * (1 / 100) →
      waitLoop check (some T) (fun _ => none) elapsed i fuel =
        some .timeoutRaised := by
  intro fuel
  induction fuel with
  | zero => intro _ _ h _; omega
  | succ fuel ih =>
    intro elapsed i _ hle
    simp only [waitLoop]
    cases hhit : timeoutHit (some T) (elapsed + 1 / 100) with
    | true => simp
    | false =>
      rw [if_neg (by simp)]
      have hdec : timeoutHit (some T) (elapsed + 1 / 100) =
          decide (T ≠ 0 ∧ T ≤ elapsed + 1 / 100) := rfl
      rw [hdec] at hhit
      have hnot : ¬(T ≤ elapsed + 1 / 100) := by
        intro hc
        exact of_decide_eq_false hhit ⟨ne_of_gt hT, hc⟩
      have hfuel : 1 ≤ fuel := by
        rcases Nat.eq_zero_or_pos fuel with h0 | h1
        · exfalso
          apply hnot
          rw [h0] at hle
          push_cast at hle
          linarith
        · exact h1
      have hle2 : T ≤ (elapsed + 1 / 100) + fuel * (1 / 100) := by
        push_cast at hle
        linarith
      exact ih (elapsed + 1 / 100) (i + 1) hfuel hle2

/-- C7 (counterexample): `wait_for` with a 1-second timeout and a slot that
is never fulfilled raises `asyncio.TimeoutError` — but the pending entry for
the request id is still in the map afterwards (the `del` on line 419 is
unreachable from the `raise` on line 415), contradicting the claimed
"no dangling entry". -/
theorem c7_counterexample :
    wait_for (fun _ => true) (some 1) (fun _ => none) 200 =
      some (.timeoutRaised, true) := by
  unfold wait_for
  rw [waitLoop_never_fulfilled (fun _ => true) 1 (by norm_num) 200 0 0
    (by norm_num) (by norm_num)]

/-- C7 (amended): if no value at all appears in the pending slot before the
polling time reaches a supplied (truthy) timeout, `wait_for` fails with
`asyncio.TimeoutError`, but the pending-map entry created for the request id
is NOT removed: the raise bypasses the `del`, and the dangling entry remains
under that channel (it is removed only on successful resolution). -/
theorem c7_timeout_leaves_entry (check : Context → Bool) (T : ℚ)
    (fuel : Nat) (hT : 0 < T) (hf : 1 ≤ fuel)
    (hcover : T ≤ fuel * (1 / 100)) :
    wait_for check (some T) (fun _ => none) fuel =
      some (.timeoutRaised, true) := by
  unfold wait_for
  rw [waitLoop_never_fulfilled check T hT fuel 0 0 hf (by simpa using hcover)]

/-- C7 (witness): the amended theorem at timeout 1 s and fuel 100. -/
theorem c7_witness :
    wait_for (fun _ => false) (some 1) (fun _ => none) 100 =
      some (.timeoutRaised, true) :=
  c7_timeout_leaves_entry (fun _ => false) 1 100 (by norm_num) (by norm_num)
    (by norm_num)

/-- Once the slot holds a value failing `check`, every iteration takes the
`continue` branch: the state (slot value, `elapsed`) never changes, so the
loop never finishes, for any amount of fuel. -/
lemma waitLoop_unsatisfying_spins (check : Context → Bool) (c : Context)
    (hc : check c = false) (timeout : Option ℚ) :
    ∀ (fuel : Nat) (elapsed : ℚ) (i : Nat),
      waitLoop check timeout (fun _ => some c) elapsed i fuel = none := by
  intro fuel
  induction fuel with
  | zero => intro _ _; rfl
  | succ fuel ih =>
    intro elapsed i
    simp only [waitLoop, hc]
    exact ih elapsed (i + 1)

/-- C9: when the pending slot is fulfilled with a context that does not
satisfy the predicate, the loop body hits `continue` before the sleep, the
`elapsed` increment and the timeout test, so `wait_for` neither returns nor
times out — for any supplied timeout and any number of iterations. -/
theorem c9_unsatisfying_value_never_returns (check : Context → Bool)
    (c : Context) (timeout : Option ℚ) (fuel : Nat)
    (hc : check c = false) :
    wait_for check timeout (fun _ => some c) fuel = none := by
  unfold wait_for
  rw [waitLoop_unsatisfying_spins check c hc timeout fuel 0 0]

/-- C9 (witness): a never-matching predicate with a fulfilled slot and a
supplied 1-second timeout: 500 polling iterations end with the loop still
running. -/
theorem c9_witness :
    wait_for (fun _ => false) (some 1)
      (fun _ => some (.beacon beaconEvent)) 500 = none :=
  c9_unsatisfying_value_never_returns (fun _ => false)
    (.beacon beaconEvent) (some 1) 500 rfl

/-! ## `reply` behaviour -/

/-- Whether a raised exception is a `CannotReply`. -/
def isCannotReply : Option ReplyError → Bool
  | some (.cannotReply _) => true
  | _ => false

/-- C3 (counterexample): `reply` on a context with NO reply token raises
`TypeError` (context.py line 243), not `CannotReply` as claimed. -/
theorem c3_counterexample :
    RepliableContext.reply none 0 100 false true =
      ⟨some (.typeError "Reply error was not provided, check ctx.state."),
        false, 0⟩
    ∧ isCannotReply (RepliableContext.reply none 0 100 false true).error =
        false := by
  decide

/-- C3 (amended): `reply` raises `CannotReply` exactly when a (truthy) reply
token is present AND (more than 20 minutes have elapsed from the event
timestamp at call time, OR the context has already been replied to); with no
truthy token it raises `TypeError` instead; a call on an already-replied
context performs no outbound send; and a call with a truthy token, within
the window, on a not-yet-replied context succeeds with exactly one send. -/
theorem c3_cannot_reply_conditions (tok : Option String) (ts now : ℚ)
    (replied sendOk : Bool) :
    (isCannotReply (RepliableContext.reply tok ts now replied sendOk).error =
        true ↔
      tokenFalsy tok = false ∧ (60 * 20 < now - ts ∨ replied = true))
    ∧ (tokenFalsy tok = true →
        RepliableContext.reply tok ts now replied sendOk =
          ⟨some (.typeError "Reply error was not provided, check ctx.state."),
            replied, 0⟩)
    ∧ (replied = true →
        (RepliableContext.reply tok ts now replied sendOk).sends = 0)
    ∧ (tokenFalsy tok = false → ¬(60 * 20 < now - ts) → replied = false →
        sendOk = true →
        RepliableContext.reply tok ts now replied sendOk = ⟨none, true, 1⟩) := by
  cases replied <;> cases sendOk <;>
    by_cases h1 : tokenFalsy tok = true <;>
      by_cases h2 : (60 * 20 : ℚ) < now - ts <;>
        simp [RepliableContext.reply, isCannotReply, h1, h2]

/-- C3 (witness): with a valid token, a 19-minute-old context succeeds; a
21-minute-old one raises `CannotReply`. -/
theorem c3_witness :
    RepliableContext.reply (some "tok") 0 1140 false true = ⟨none, true, 1⟩
    ∧ isCannotReply
        (RepliableContext.reply (some "tok") 0 1260 false true).error =
        true := by
  refine ⟨?_, ?_⟩
  · exact (c3_cannot_reply_conditions (some "tok") 0 1140 false true).2.2.2
      (by decide) (by norm_num) rfl rfl
  · exact (c3_cannot_reply_conditions (some "tok") 0 1260 false true).1.mpr
      ⟨by decide, Or.inl (by norm_num)⟩

/-- C10: with a truthy token, inside the window and not yet replied, a
`reply` whose outbound send fails still ends with `replied = true` (the flag
is written before the awaited send and never rolled back), after exactly one
attempted send; every subsequent `reply` on that context raises
`CannotReply` and performs no further send, whatever the later wall-clock
time or send outcome. -/
theorem c10_flag_set_before_send (tok : Option String)
    (ts now now2 : ℚ) (sendOk2 : Bool)
    (h1 : tokenFalsy tok = false) (h2 : ¬(60 * 20 < now - ts)) :
    (RepliableContext.reply tok ts now false false).error = some .sendFailed
    ∧ (RepliableContext.reply tok ts now false false).replied = true
    ∧ (RepliableContext.reply tok ts now false false).sends = 1
    ∧ isCannotReply (RepliableContext.reply tok ts now2
        (RepliableContext.reply tok ts now false false).replied
        sendOk2).error = true
    ∧ (RepliableContext.reply tok ts now2
        (RepliableContext.reply tok ts now false false).replied
        sendOk2).sends = 0 := by
  have hr : RepliableContext.reply tok ts now false false =
      ⟨some .sendFailed, true, 1⟩ := by
    simp [RepliableContext.reply, h1, h2]
  rw [hr]
  by_cases h3 : (60 * 20 : ℚ) < now2 - ts <;>
    simp [hr, RepliableContext.reply, isCannotReply, h1, h3]

/-- C10 (witness): the theorem at a concrete token and concrete times. -/
theorem c10_witness :
    (RepliableContext.reply (some "tok") 0 10 false false).replied = true
    ∧ isCannotReply (RepliableContext.reply (some "tok") 0 20
        (RepliableContext.reply (some "tok") 0 10 false false).replied
        true).error = true := by
  have h := c10_flag_set_before_send (some "tok") 0 10 20 true
    (by decide) (by norm_num)
  exact ⟨h.2.1, h.2.2.2.1⟩

/-! ## Per-variant decoding -/

/-- A well-formed memberLeft envelope: the platform delivers the departed
users in the `left.members` array (there is no `joined` section). -/
def memberLeftFixture : EventData :=
  { baseEvent with etype := "memberLeft", left := some [⟨"user", "U9"⟩] }

/-- A well-formed sticker message envelope whose `message.text` is "hi". -/
def stickerFixture : EventData :=
  { baseEvent with
      etype := "message", messageType := some "sticker",
      msgId := some "m7", msgPackageId := some "p1",
      msgStickerId := some "s1", msgStickerResourceType := some "MESSAGE",
      msgText := some "hi", replyToken := some "rt" }

/-- The self-recursive `text` property never produces a value, whatever the
call-stack budget. -/
lemma textProp_none (c : StickerMessageContext) :
    ∀ depth : Nat, c.textProp depth = none := by
  intro depth
  induction depth with
  | zero => rfl
  | succ d ih => exact ih

/-- C8: two of the twenty variants contradict the round-trip claim.  A
well-formed memberLeft fixture carries its departed users under
`left.members`, but `MemberLeaveContext.__init__` reads `joined.members`
(context.py line 995), so decoding raises `KeyError` instead of exposing the
fixture's list through `members`.  A well-formed sticker fixture decodes
(storing `_text = "hi"`), but the `text` property returns `self.text`
(line 856) — an unbounded self-call that ends in `RecursionError`, never in
the stored text. -/
theorem c8_roundtrip_defects :
    MemberLeaveContext.init memberLeftFixture = .error (.keyError "joined")
    ∧ memberLeftFixture.left = some [⟨"user", "U9"⟩]
    ∧ StickerMessageContext.init stickerFixture =
        .ok ⟨"m7", "p1", "s1", "MESSAGE", none, some "hi"⟩
    ∧ (∀ depth : Nat,
        StickerMessageContext.textProp
          ⟨"m7", "p1", "s1", "MESSAGE", none, some "hi"⟩ depth = none) :=
  ⟨rfl, rfl, rfl, textProp_none _⟩
